import Mathlib

/-!
Verification of the asset_planner repository's financial projection engine.

The source (src/asset_planner.py, src/utils.py, src/visualizations.py) is a
Streamlit application.  We shallowly embed the pure computational core:

* `convert_to_yen`        — utils.py, lines 6-8 (`int(value * 10000)`)
* `transform_input_data`  — asset_planner.py, lines 233-260
* `simRow` / `run_simulation` — asset_planner.py, lines 262-291 (the per-month
  dataframe rows, the derived gain column and the date column)
* `dateAt` / `nextMonthEnd`   — asset_planner.py, lines 293-315 (add_date_columns)
* `progress_point`        — asset_planner.py, lines 393-399 (display_progress)
* `chart_percentages`     — visualizations.py, lines 16-54
* `display_progress_percentage` — asset_planner.py, lines 402-403

Monetary values that Python stores as ints are `ℤ`; values that Python stores
as floats (rates, dataframe cells, "man"-denominated inputs) are modelled as
`ℚ`.  The dataframe `df` of `run_simulation`, indexed 0..months and mutated
row by row, is embedded as the list of rows it holds after the loop, where
row `i` is a function of row `i-1` exactly as in the loop body.
-/

namespace AssetPlanner

/-- Calendar date (the `datetime.datetime` values the code builds; the code
only ever constructs or inspects year, month and day). -/
structure Date where
  year : ℤ
  month : ℕ
  day : ℕ
deriving DecidableEq, Inhabited

/-- Python `calendar.isleap`: `year % 4 == 0 and (year % 100 != 0 or year % 400 == 0)`. -/
def isLeapYear (y : ℤ) : Bool :=
  y % 4 == 0 && (y % 100 != 0 || y % 400 == 0)

/-- Python `calendar.monthrange(y, m)[1]`: the number of days of month `m`
of year `y` (month lengths table plus the leap-year rule for February). -/
def daysInMonth (y : ℤ) (m : ℕ) : ℕ :=
  if m = 2 then (if isLeapYear y then 29 else 28)
  else if m = 4 ∨ m = 6 ∨ m = 9 ∨ m = 11 then 30
  else 31

/-- One step of the date loop of `add_date_columns` (asset_planner.py,
lines 304-312): increment the month, wrapping into the next year, and take
the last day of the resulting month. -/
def nextMonthEnd (dt : Date) : Date :=
  let nm := dt.month + 1
  if nm > 12 then
    ⟨dt.year + 1, 1, daysInMonth (dt.year + 1) 1⟩
  else
    ⟨dt.year, nm, daysInMonth dt.year nm⟩

/-- `date_index[i]` of `add_date_columns`: the start date followed by the
iterates of `nextMonthEnd` (the loop appends `current_date` before each
advance, so entry `i` is the `i`-th iterate applied to the start date). -/
def dateAt (start : Date) : ℕ → Date
  | 0 => start
  | i + 1 => nextMonthEnd (dateAt start i)

/-- The month-end of the month reached by advancing `i` calendar months from
`(start.year, start.month)`.  This is the spec's description of the date of
snapshot `i` ("advance by i calendar months, normalizing to the last day of
that month"), stated in closed form for comparison with the code's `dateAt`. -/
def monthEndAfter (start : Date) (i : ℕ) : Date :=
  let t := start.month - 1 + i
  ⟨start.year + (t / 12 : ℕ), t % 12 + 1, daysInMonth (start.year + (t / 12 : ℕ)) (t % 12 + 1)⟩

/-- utils.convert_to_yen (utils.py, lines 6-8): `int(value * 10000)`.
Python `int()` on a number truncates toward zero; on a rational `q` that is
`q.num.tdiv q.den`. -/
def convert_to_yen (value : ℚ) : ℤ :=
  (value * 10000).num.tdiv ((value * 10000).den : ℤ)

/-- The raw user inputs gathered by `get_user_inputs` (asset_planner.py,
lines 103-231).  `years` comes from an integer slider; the "man" amounts and
the (already percent-divided) return rates are floats, modelled as `ℚ`. -/
structure Inputs where
  years : ℕ
  monthly_stock_man : ℚ
  monthly_bond_man : ℚ
  monthly_savings_man : ℚ
  stock_return : ℚ
  bond_return : ℚ
  savings_return : ℚ
  initial_stock_man : ℚ
  initial_bond_man : ℚ
  initial_savings_man : ℚ
  current_stock_man : ℚ
  current_bond_man : ℚ
  current_savings_man : ℚ
deriving DecidableEq

/-- The dictionary built by `transform_input_data` (asset_planner.py,
lines 233-260): converted integer yen amounts, copied years and rates, and
the two sum fields. -/
structure Data where
  monthly_stock : ℤ
  monthly_bond : ℤ
  monthly_savings : ℤ
  initial_stock : ℤ
  initial_bond : ℤ
  initial_savings : ℤ
  current_stock : ℤ
  current_bond : ℤ
  current_savings : ℤ
  years : ℕ
  stock_return : ℚ
  bond_return : ℚ
  savings_return : ℚ
  current_total_assets : ℤ
  initial_total : ℤ
deriving DecidableEq

/-- asset_planner.transform_input_data (lines 233-260): converts every
man-denominated amount with `convert_to_yen`, copies `years` and the three
rates, and computes the two totals.  The source performs no validation of any
kind: every input is transformed. -/
def transform_input_data (inputs : Inputs) : Data :=
  { monthly_stock := convert_to_yen inputs.monthly_stock_man
    monthly_bond := convert_to_yen inputs.monthly_bond_man
    monthly_savings := convert_to_yen inputs.monthly_savings_man
    initial_stock := convert_to_yen inputs.initial_stock_man
    initial_bond := convert_to_yen inputs.initial_bond_man
    initial_savings := convert_to_yen inputs.initial_savings_man
    current_stock := convert_to_yen inputs.current_stock_man
    current_bond := convert_to_yen inputs.current_bond_man
    current_savings := convert_to_yen inputs.current_savings_man
    years := inputs.years
    stock_return := inputs.stock_return
    bond_return := inputs.bond_return
    savings_return := inputs.savings_return
    current_total_assets := convert_to_yen inputs.current_stock_man +
      convert_to_yen inputs.current_bond_man + convert_to_yen inputs.current_savings_man
    initial_total := convert_to_yen inputs.initial_stock_man +
      convert_to_yen inputs.initial_bond_man + convert_to_yen inputs.initial_savings_man }

/-- One row of the simulation dataframe of `run_simulation`
(asset_planner.py, lines 262-291): the five numeric columns filled by the
loop (stock, bond, savings, total assets, cumulative contributions). -/
structure Row where
  stock : ℚ
  bond : ℚ
  savings : ℚ
  total : ℚ
  contrib : ℚ
deriving DecidableEq, Inhabited

/-- Row `i` of the dataframe after the loop of `run_simulation`: row 0 is the
initial balances with zero cumulative contributions (lines 267-272); row `i+1`
applies one month of return to each prior balance and then adds the monthly
contribution, and accumulates the contributions (lines 275-283). -/
def simRow (d : Data) : ℕ → Row
  | 0 =>
    { stock := (d.initial_stock : ℚ)
      bond := (d.initial_bond : ℚ)
      savings := (d.initial_savings : ℚ)
      total := (d.initial_stock : ℚ) + (d.initial_bond : ℚ) + (d.initial_savings : ℚ)
      contrib := 0 }
  | i + 1 =>
    let prev := simRow d i
    let s := prev.stock * (1 + d.stock_return / 12) + (d.monthly_stock : ℚ)
    let b := prev.bond * (1 + d.bond_return / 12) + (d.monthly_bond : ℚ)
    let v := prev.savings * (1 + d.savings_return / 12) + (d.monthly_savings : ℚ)
    { stock := s
      bond := b
      savings := v
      total := s + b + v
      contrib := prev.contrib + (d.monthly_stock : ℚ) + (d.monthly_bond : ℚ) +
        (d.monthly_savings : ℚ) }

/-- The derived gain column of `run_simulation` (line 286):
total assets minus cumulative contributions minus the initial total. -/
def gain (d : Data) (i : ℕ) : ℚ :=
  (simRow d i).total - (simRow d i).contrib - (d.initial_total : ℚ)

/-- asset_planner.run_simulation (lines 262-291): the full dataframe it
returns, one entry per month index `0..years*12`, each entry holding the
numeric row, the gain column and the date column (`add_date_columns` stamps
the rows starting from the wall-clock date `now` of the run). -/
def run_simulation (d : Data) (now : Date) : List (Row × ℚ × Date) :=
  (List.range (d.years * 12 + 1)).map (fun i => (simRow d i, gain d i, dateAt now i))

/-- The boolean filter `df['総資産'] >= data['current_total_assets']` of
`display_progress` (line 399), applied to one row. -/
def progress_cond (d : Data) (r : Row) : Bool :=
  decide ((d.current_total_assets : ℚ) ≤ r.total)

/-- `progress_point` of `display_progress` (line 399): the first dataframe
index whose total assets reach the actual current total, and the final index
`months` when no row does. -/
def progress_point (d : Data) (now : Date) : ℕ :=
  let rows := run_simulation d now
  if rows.any (fun x => progress_cond d x.1) then rows.findIdx (fun x => progress_cond d x.1)
  else d.years * 12

/-- The per-class percentage block of visualizations.create_asset_growth_chart
(visualizations.py, lines 16-54): the three percentages are computed and
attached only inside `if current_total_assets > 0`; otherwise the block is
skipped, which we model as `none`. -/
def chart_percentages (current_stock current_bond current_savings current_total : ℚ) :
    Option (ℚ × ℚ × ℚ) :=
  if 0 < current_total then
    some (current_stock / current_total * 100, current_bond / current_total * 100,
      current_savings / current_total * 100)
  else none

/-- `progress_percentage` of `display_progress` (asset_planner.py, line 403):
the division `current_total_assets / df.loc[months, '総資産'] * 100` is not
guarded.  The dataframe cell is a numpy float, so a zero denominator yields a
non-finite value (inf or nan) without raising; we model the non-finite
outcome as `none` and a finite quotient as `some`. -/
def display_progress_percentage (d : Data) : Option ℚ :=
  if (simRow d (d.years * 12)).total = 0 then none
  else some ((d.current_total_assets : ℚ) / (simRow d (d.years * 12)).total * 100)

/-- A sample parameter record (one year horizon, the spec's §8 concrete
scenario contributions scaled to all three classes, non-negative rates). -/
def d0 : Data :=
  { monthly_stock := 30000
    monthly_bond := 10000
    monthly_savings := 10000
    initial_stock := 0
    initial_bond := 0
    initial_savings := 0
    current_stock := 0
    current_bond := 0
    current_savings := 0
    years := 1
    stock_return := 3 / 50
    bond_return := 1 / 100
    savings_return := 1 / 1000
    current_total_assets := 0
    initial_total := 0 }

/-- A sample run date. -/
def now0 : Date := ⟨2026, 10, 12⟩

lemma run_simulation_length (d : Data) (now : Date) :
    (run_simulation d now).length = d.years * 12 + 1 := by
  simp [run_simulation]

lemma run_simulation_getD (d : Data) (now : Date) (i : ℕ) (h : i ≤ d.years * 12) :
    (run_simulation d now).getD i default = (simRow d i, gain d i, dateAt now i) := by
  unfold run_simulation
  rw [List.getD_eq_getElem?_getD, List.getElem?_map, List.getElem?_range (by omega)]
  rfl

lemma convert_eq_floor (v : ℚ) (hv : 0 ≤ v) : convert_to_yen v = ⌊v * 10000⌋ := by
  unfold convert_to_yen
  have hq : 0 ≤ v * 10000 := by positivity
  rw [Int.tdiv_eq_ediv (Rat.num_nonneg.mpr hq) (Int.ofNat_nonneg _), Rat.floor_def]

lemma convert_neg (v : ℚ) : convert_to_yen (-v) = - convert_to_yen v := by
  unfold convert_to_yen
  rw [show -v * 10000 = -(v * 10000) by ring, Rat.num_neg_eq_neg_num, Rat.den_neg_eq_den,
    Int.neg_tdiv]

lemma convert_zero : convert_to_yen 0 = 0 := by
  rw [convert_eq_floor 0 (by norm_num), show (0 : ℚ) * 10000 = ((0 : ℤ) : ℚ) by norm_num,
    Int.floor_intCast]

lemma date_mk_eq (y1 y2 : ℤ) (m1 m2 : ℕ) (h : y1 = y2) (hm : m1 = m2) :
    (⟨y1, m1, daysInMonth y1 m1⟩ : Date) = ⟨y2, m2, daysInMonth y2 m2⟩ := by
  subst h; subst hm; rfl

lemma dateAt_eq_monthEndAfter (start : Date) (h1 : 1 ≤ start.month) (h2 : start.month ≤ 12) :
    ∀ i : ℕ, dateAt start (i + 1) = monthEndAfter start (i + 1) := by
  intro i
  induction i with
  | zero =>
    show nextMonthEnd start = monthEndAfter start 1
    unfold nextMonthEnd monthEndAfter
    by_cases hm : start.month + 1 > 12
    · have hm12 : start.month = 12 := by omega
      rw [if_pos hm]
      simp only [hm12]
      exact date_mk_eq _ _ _ _ (by norm_num) (by norm_num)
    · rw [if_neg hm]
      refine date_mk_eq _ _ _ _ ?_ ?_
      · have : (start.month - 1 + 1) / 12 = 0 := by omega
        simp [this]
      · omega
  | succ i ih =>
    show nextMonthEnd (dateAt start (i + 1)) = monthEndAfter start (i + 1 + 1)
    rw [ih]
    unfold monthEndAfter nextMonthEnd
    dsimp only
    set t := start.month - 1 + (i + 1) with ht
    have htt : start.month - 1 + (i + 1 + 1) = t + 1 := by omega
    rw [htt]
    by_cases hm : t % 12 + 1 + 1 > 12
    · have h11 : t % 12 = 11 := by omega
      rw [if_pos hm]
      refine date_mk_eq _ _ _ _ ?_ ?_
      · have hq : (t + 1) / 12 = t / 12 + 1 := by omega
        rw [hq]
        push_cast
        ring
      · omega
    · rw [if_neg hm]
      refine date_mk_eq _ _ _ _ ?_ ?_
      · have hq : (t + 1) / 12 = t / 12 := by omega
        rw [hq]
      · omega

lemma findIdx_spec {α : Type} (p : α → Bool) (dflt : α) :
    ∀ l : List α, l.any p = true →
      l.findIdx p < l.length ∧ p (l.getD (l.findIdx p) dflt) = true ∧
      ∀ j, j < l.findIdx p → p (l.getD j dflt) = false := by
  intro l
  induction l with
  | nil => simp
  | cons a t ih =>
    intro h
    by_cases ha : p a = true
    · refine ⟨by simp [List.findIdx_cons, ha], ?_, ?_⟩
      · simp [List.findIdx_cons, ha]
      · intro j hj
        simp [List.findIdx_cons, ha] at hj
    · have ha' : p a = false := by simpa using ha
      have ht : t.any p = true := by simpa [List.any_cons, ha'] using h
      obtain ⟨ih1, ih2, ih3⟩ := ih ht
      refine ⟨?_, ?_, ?_⟩
      · simp only [List.findIdx_cons, ha', cond_false, List.length_cons]
        omega
      · simpa [List.findIdx_cons, ha'] using ih2
      · intro j hj
        simp only [List.findIdx_cons, ha', cond_false] at hj
        match j with
        | 0 => simp [ha']
        | j + 1 =>
          have : j < t.findIdx p := by omega
          simpa using ih3 j this

lemma simRow_contrib (d : Data) :
    ∀ i : ℕ, (simRow d i).contrib =
      (i : ℚ) * ((d.monthly_stock : ℚ) + (d.monthly_bond : ℚ) + (d.monthly_savings : ℚ)) := by
  intro i
  induction i with
  | zero => simp [simRow]
  | succ i ih =>
    show (simRow d i).contrib + (d.monthly_stock : ℚ) + (d.monthly_bond : ℚ) +
        (d.monthly_savings : ℚ) = _
    rw [ih]
    push_cast
    ring

lemma simRow_nonneg (d : Data)
    (hs : 0 ≤ d.stock_return) (hb : 0 ≤ d.bond_return) (hv : 0 ≤ d.savings_return)
    (hms : 0 ≤ d.monthly_stock) (hmb : 0 ≤ d.monthly_bond) (hmv : 0 ≤ d.monthly_savings)
    (his : 0 ≤ d.initial_stock) (hib : 0 ≤ d.initial_bond) (hiv : 0 ≤ d.initial_savings) :
    ∀ i : ℕ, 0 ≤ (simRow d i).stock ∧ 0 ≤ (simRow d i).bond ∧ 0 ≤ (simRow d i).savings := by
  intro i
  have hms' : (0 : ℚ) ≤ (d.monthly_stock : ℚ) := by exact_mod_cast hms
  have hmb' : (0 : ℚ) ≤ (d.monthly_bond : ℚ) := by exact_mod_cast hmb
  have hmv' : (0 : ℚ) ≤ (d.monthly_savings : ℚ) := by exact_mod_cast hmv
  induction i with
  | zero =>
    refine ⟨?_, ?_, ?_⟩ <;> simp [simRow]
    · exact_mod_cast his
    · exact_mod_cast hib
    · exact_mod_cast hiv
  | succ i ih =>
    obtain ⟨i1, i2, i3⟩ := ih
    refine ⟨?_, ?_, ?_⟩
    · show 0 ≤ (simRow d i).stock * (1 + d.stock_return / 12) + (d.monthly_stock : ℚ)
      have := mul_nonneg i1 (by linarith : (0 : ℚ) ≤ 1 + d.stock_return / 12)
      linarith
    · show 0 ≤ (simRow d i).bond * (1 + d.bond_return / 12) + (d.monthly_bond : ℚ)
      have := mul_nonneg i2 (by linarith : (0 : ℚ) ≤ 1 + d.bond_return / 12)
      linarith
    · show 0 ≤ (simRow d i).savings * (1 + d.savings_return / 12) + (d.monthly_savings : ℚ)
      have := mul_nonneg i3 (by linarith : (0 : ℚ) ≤ 1 + d.savings_return / 12)
      linarith

lemma simRow_step (d : Data)
    (hs : 0 ≤ d.stock_return) (hb : 0 ≤ d.bond_return) (hv : 0 ≤ d.savings_return)
    (hms : 0 ≤ d.monthly_stock) (hmb : 0 ≤ d.monthly_bond) (hmv : 0 ≤ d.monthly_savings)
    (his : 0 ≤ d.initial_stock) (hib : 0 ≤ d.initial_bond) (hiv : 0 ≤ d.initial_savings)
    (i : ℕ) :
    (simRow d i).stock ≤ (simRow d (i + 1)).stock ∧
    (simRow d i).bond ≤ (simRow d (i + 1)).bond ∧
    (simRow d i).savings ≤ (simRow d (i + 1)).savings := by
  obtain ⟨i1, i2, i3⟩ := simRow_nonneg d hs hb hv hms hmb hmv his hib hiv i
  have hms' : (0 : ℚ) ≤ (d.monthly_stock : ℚ) := by exact_mod_cast hms
  have hmb' : (0 : ℚ) ≤ (d.monthly_bond : ℚ) := by exact_mod_cast hmb
  have hmv' : (0 : ℚ) ≤ (d.monthly_savings : ℚ) := by exact_mod_cast hmv
  refine ⟨?_, ?_, ?_⟩
  · show (simRow d i).stock ≤ (simRow d i).stock * (1 + d.stock_return / 12) + _
    have := mul_nonneg i1 (by linarith : (0 : ℚ) ≤ d.stock_return / 12)
    nlinarith
  · show (simRow d i).bond ≤ (simRow d i).bond * (1 + d.bond_return / 12) + _
    have := mul_nonneg i2 (by linarith : (0 : ℚ) ≤ d.bond_return / 12)
    nlinarith
  · show (simRow d i).savings ≤ (simRow d i).savings * (1 + d.savings_return / 12) + _
    have := mul_nonneg i3 (by linarith : (0 : ℚ) ≤ d.savings_return / 12)
    nlinarith

lemma simRow_mono (d : Data)
    (hs : 0 ≤ d.stock_return) (hb : 0 ≤ d.bond_return) (hv : 0 ≤ d.savings_return)
    (hms : 0 ≤ d.monthly_stock) (hmb : 0 ≤ d.monthly_bond) (hmv : 0 ≤ d.monthly_savings)
    (his : 0 ≤ d.initial_stock) (hib : 0 ≤ d.initial_bond) (hiv : 0 ≤ d.initial_savings)
    (i j : ℕ) (hij : i ≤ j) :
    (simRow d i).stock ≤ (simRow d j).stock ∧
    (simRow d i).bond ≤ (simRow d j).bond ∧
    (simRow d i).savings ≤ (simRow d j).savings := by
  induction j, hij using Nat.le_induction with
  | base => exact ⟨le_refl _, le_refl _, le_refl _⟩
  | succ j hij ih =>
    obtain ⟨s1, s2, s3⟩ := simRow_step d hs hb hv hms hmb hmv his hib hiv j
    exact ⟨le_trans ih.1 s1, le_trans ih.2.1 s2, le_trans ih.2.2 s3⟩




lemma simRow_total (d : Data) (i : ℕ) :
    (simRow d i).total = (simRow d i).stock + (simRow d i).bond + (simRow d i).savings := by
  cases i <;> rfl

/-- C1: for every parameter record, every month index `1 ≤ i ≤ horizonMonths` and
each asset class, `balance[i] = balance[i-1] * (1 + annualRate/12) + monthlyContribution`:
the prior balance is compounded first and the month's contribution is added afterwards,
earning no return in its first month. -/
theorem C1_compounding_recurrence (d : Data) (now : Date) (i : ℕ)
    (h1 : 1 ≤ i) (h2 : i ≤ d.years * 12) :
    ((run_simulation d now).getD i default).1.stock =
      ((run_simulation d now).getD (i - 1) default).1.stock * (1 + d.stock_return / 12) +
        (d.monthly_stock : ℚ) ∧
    ((run_simulation d now).getD i default).1.bond =
      ((run_simulation d now).getD (i - 1) default).1.bond * (1 + d.bond_return / 12) +
        (d.monthly_bond : ℚ) ∧
    ((run_simulation d now).getD i default).1.savings =
      ((run_simulation d now).getD (i - 1) default).1.savings * (1 + d.savings_return / 12) +
        (d.monthly_savings : ℚ) := by
  obtain ⟨j, rfl⟩ : ∃ j, i = j + 1 := ⟨i - 1, by omega⟩
  rw [run_simulation_getD d now (j + 1) h2, run_simulation_getD d now (j + 1 - 1) (by omega)]
  simp only [Nat.add_sub_cancel]
  exact ⟨rfl, rfl, rfl⟩

/-- Witness for C1 at the sample record `d0`, month index 1. -/
theorem C1_witness :
    (1 : ℕ) ≤ 1 ∧ 1 ≤ d0.years * 12 ∧
    (((run_simulation d0 now0).getD 1 default).1.stock =
      ((run_simulation d0 now0).getD (1 - 1) default).1.stock * (1 + d0.stock_return / 12) +
        (d0.monthly_stock : ℚ) ∧
    ((run_simulation d0 now0).getD 1 default).1.bond =
      ((run_simulation d0 now0).getD (1 - 1) default).1.bond * (1 + d0.bond_return / 12) +
        (d0.monthly_bond : ℚ) ∧
    ((run_simulation d0 now0).getD 1 default).1.savings =
      ((run_simulation d0 now0).getD (1 - 1) default).1.savings * (1 + d0.savings_return / 12) +
        (d0.monthly_savings : ℚ)) :=
  ⟨le_refl 1, by decide, C1_compounding_recurrence d0 now0 1 (le_refl 1) (by decide)⟩

/-- C2: snapshot 0 of the projection has each class balance equal to that class's
initial balance, cumulative contributions equal to 0, and total assets equal to the
sum of the three initial balances. -/
theorem C2_snapshot_zero (d : Data) (now : Date) :
    ((run_simulation d now).getD 0 default).1.stock = (d.initial_stock : ℚ) ∧
    ((run_simulation d now).getD 0 default).1.bond = (d.initial_bond : ℚ) ∧
    ((run_simulation d now).getD 0 default).1.savings = (d.initial_savings : ℚ) ∧
    ((run_simulation d now).getD 0 default).1.contrib = 0 ∧
    ((run_simulation d now).getD 0 default).1.total =
      (d.initial_stock : ℚ) + (d.initial_bond : ℚ) + (d.initial_savings : ℚ) := by
  rw [run_simulation_getD d now 0 (Nat.zero_le _)]
  exact ⟨rfl, rfl, rfl, rfl, rfl⟩

/-- C9: for every parameter record and every month index `0 ≤ i ≤ horizonMonths`,
`cumulativeContributions[i]` equals `i` times the sum of the three monthly
contributions exactly. -/
theorem C9_cumulative_contributions (d : Data) (now : Date) (i : ℕ) (h : i ≤ d.years * 12) :
    ((run_simulation d now).getD i default).1.contrib =
      (i : ℚ) * ((d.monthly_stock : ℚ) + (d.monthly_bond : ℚ) + (d.monthly_savings : ℚ)) := by
  rw [run_simulation_getD d now i h]
  exact simRow_contrib d i

/-- Witness for C9 at the sample record `d0`, month index 12. -/
theorem C9_witness :
    (12 : ℕ) ≤ d0.years * 12 ∧
    ((run_simulation d0 now0).getD 12 default).1.contrib =
      (12 : ℚ) * ((d0.monthly_stock : ℚ) + (d0.monthly_bond : ℚ) + (d0.monthly_savings : ℚ)) :=
  ⟨by decide, C9_cumulative_contributions d0 now0 12 (by decide)⟩

/-- C10: when all three annual return rates are non-negative (contributions and
initial balances non-negative as well), each class balance and the total assets are
non-decreasing in the month index across the whole snapshot sequence, and every
balance (and the total) stays non-negative. -/
theorem C10_monotone_nonneg (d : Data) (now : Date)
    (hs : 0 ≤ d.stock_return) (hb : 0 ≤ d.bond_return) (hv : 0 ≤ d.savings_return)
    (hms : 0 ≤ d.monthly_stock) (hmb : 0 ≤ d.monthly_bond) (hmv : 0 ≤ d.monthly_savings)
    (his : 0 ≤ d.initial_stock) (hib : 0 ≤ d.initial_bond) (hiv : 0 ≤ d.initial_savings) :
    (∀ i j : ℕ, i ≤ j → j ≤ d.years * 12 →
      ((run_simulation d now).getD i default).1.stock ≤
        ((run_simulation d now).getD j default).1.stock ∧
      ((run_simulation d now).getD i default).1.bond ≤
        ((run_simulation d now).getD j default).1.bond ∧
      ((run_simulation d now).getD i default).1.savings ≤
        ((run_simulation d now).getD j default).1.savings ∧
      ((run_simulation d now).getD i default).1.total ≤
        ((run_simulation d now).getD j default).1.total) ∧
    (∀ i : ℕ, i ≤ d.years * 12 →
      0 ≤ ((run_simulation d now).getD i default).1.stock ∧
      0 ≤ ((run_simulation d now).getD i default).1.bond ∧
      0 ≤ ((run_simulation d now).getD i default).1.savings ∧
      0 ≤ ((run_simulation d now).getD i default).1.total) := by
  constructor
  · intro i j hij hj
    rw [run_simulation_getD d now i (le_trans hij hj), run_simulation_getD d now j hj]
    obtain ⟨m1, m2, m3⟩ := simRow_mono d hs hb hv hms hmb hmv his hib hiv i j hij
    refine ⟨m1, m2, m3, ?_⟩
    rw [simRow_total, simRow_total]
    linarith
  · intro i hi
    rw [run_simulation_getD d now i hi]
    obtain ⟨n1, n2, n3⟩ := simRow_nonneg d hs hb hv hms hmb hmv his hib hiv i
    refine ⟨n1, n2, n3, ?_⟩
    rw [simRow_total]
    linarith

/-- Witness for C10 at the sample record `d0` (rates 6%, 1%, 0.1%). -/
theorem C10_witness :
    (∀ i j : ℕ, i ≤ j → j ≤ d0.years * 12 →
      ((run_simulation d0 now0).getD i default).1.stock ≤
        ((run_simulation d0 now0).getD j default).1.stock ∧
      ((run_simulation d0 now0).getD i default).1.bond ≤
        ((run_simulation d0 now0).getD j default).1.bond ∧
      ((run_simulation d0 now0).getD i default).1.savings ≤
        ((run_simulation d0 now0).getD j default).1.savings ∧
      ((run_simulation d0 now0).getD i default).1.total ≤
        ((run_simulation d0 now0).getD j default).1.total) ∧
    (∀ i : ℕ, i ≤ d0.years * 12 →
      0 ≤ ((run_simulation d0 now0).getD i default).1.stock ∧
      0 ≤ ((run_simulation d0 now0).getD i default).1.bond ∧
      0 ≤ ((run_simulation d0 now0).getD i default).1.savings ∧
      0 ≤ ((run_simulation d0 now0).getD i default).1.total) :=
  C10_monotone_nonneg d0 now0 (by norm_num [d0]) (by norm_num [d0]) (by norm_num [d0])
    (by decide) (by decide) (by decide) (by decide) (by decide) (by decide)

/-- C7: `progress_point` (the matched month index of `display_progress`) equals the
smallest month index `i` with `totalAssets[i] ≥ totalActualCurrent` when such an index
exists in the snapshot sequence, and equals the final month index `horizonMonths`
otherwise. -/
theorem C7_matched_month (d : Data) (now : Date) :
    ((∃ i, i ≤ d.years * 12 ∧ (d.current_total_assets : ℚ) ≤ (simRow d i).total) →
      progress_point d now ≤ d.years * 12 ∧
      (d.current_total_assets : ℚ) ≤ (simRow d (progress_point d now)).total ∧
      ∀ j, j < progress_point d now →
        ¬ (d.current_total_assets : ℚ) ≤ (simRow d j).total) ∧
    ((∀ i, i ≤ d.years * 12 → ¬ (d.current_total_assets : ℚ) ≤ (simRow d i).total) →
      progress_point d now = d.years * 12) := by
  have hany : (run_simulation d now).any (fun x => progress_cond d x.1) = true ↔
      ∃ i, i ≤ d.years * 12 ∧ (d.current_total_assets : ℚ) ≤ (simRow d i).total := by
    unfold run_simulation
    simp only [List.any_eq_true]
    constructor
    · rintro ⟨x, hx, hpx⟩
      obtain ⟨i, hir, rfl⟩ := List.mem_map.mp hx
      rw [List.mem_range] at hir
      exact ⟨i, by omega, by simpa [progress_cond] using hpx⟩
    · rintro ⟨i, hi, hcond⟩
      refine ⟨(simRow d i, gain d i, dateAt now i), ?_, ?_⟩
      · exact List.mem_map_of_mem _ (List.mem_range.mpr (by omega))
      · simpa [progress_cond] using hcond
  constructor
  · intro hex
    have hany' := hany.mpr hex
    have hpp : progress_point d now =
        (run_simulation d now).findIdx (fun x => progress_cond d x.1) := by
      unfold progress_point
      rw [if_pos hany']
    obtain ⟨hlt, htrue, hfalse⟩ :=
      findIdx_spec (fun x => progress_cond d x.1) default (run_simulation d now) hany'
    rw [run_simulation_length] at hlt
    rw [run_simulation_getD d now _ (by omega)] at htrue
    simp only [progress_cond, decide_eq_true_eq] at htrue
    refine ⟨by omega, by rw [hpp]; exact htrue, ?_⟩
    intro j hj
    rw [hpp] at hj
    have hf := hfalse j hj
    rw [run_simulation_getD d now j (by omega)] at hf
    simpa [progress_cond] using hf
  · intro hall
    have hnot : ¬ (run_simulation d now).any (fun x => progress_cond d x.1) = true := by
      rw [hany]
      rintro ⟨i, hi, hc⟩
      exact hall i hi hc
    unfold progress_point
    rw [if_neg hnot]

/-- Witness for C7 at the sample record `d0` (its current total 0 is matched at
index 0). -/
theorem C7_witness :
    ((∃ i, i ≤ d0.years * 12 ∧ (d0.current_total_assets : ℚ) ≤ (simRow d0 i).total) →
      progress_point d0 now0 ≤ d0.years * 12 ∧
      (d0.current_total_assets : ℚ) ≤ (simRow d0 (progress_point d0 now0)).total ∧
      ∀ j, j < progress_point d0 now0 →
        ¬ (d0.current_total_assets : ℚ) ≤ (simRow d0 j).total) ∧
    ((∀ i, i ≤ d0.years * 12 → ¬ (d0.current_total_assets : ℚ) ≤ (simRow d0 i).total) →
      progress_point d0 now0 = d0.years * 12) :=
  C7_matched_month d0 now0




/-- An out-of-range raw input: `years = 100` (outside [1,50]) and a negative
monthly stock amount. -/
def badInputs : Inputs :=
  { years := 100
    monthly_stock_man := -1
    monthly_bond_man := 0
    monthly_savings_man := 0
    stock_return := 0
    bond_return := 0
    savings_return := 0
    initial_stock_man := 0
    initial_bond_man := 0
    initial_savings_man := 0
    current_stock_man := 0
    current_bond_man := 0
    current_savings_man := 0 }

/-- C3 counterexample: the claim says normalization fails fast with an
`InvalidRangeError` on out-of-range input; in the code `transform_input_data`
contains no validation and no such error exists.  On an input with `years = 100`
and a negative monetary amount it returns a complete converted record instead of
failing. -/
theorem C3_counterexample :
    50 < badInputs.years ∧ badInputs.monthly_stock_man < 0 ∧
    transform_input_data badInputs =
      { monthly_stock := -10000, monthly_bond := 0, monthly_savings := 0,
        initial_stock := 0, initial_bond := 0, initial_savings := 0,
        current_stock := 0, current_bond := 0, current_savings := 0,
        years := 100, stock_return := 0, bond_return := 0, savings_return := 0,
        current_total_assets := 0, initial_total := 0 } := by
  have hneg : convert_to_yen (-1 : ℚ) = -10000 := by
    rw [show (-1 : ℚ) = -(1 : ℚ) by norm_num, convert_neg, convert_eq_floor 1 (by norm_num),
      show (1 : ℚ) * 10000 = ((10000 : ℤ) : ℚ) by norm_num, Int.floor_intCast]
  refine ⟨by decide, by norm_num [badInputs], ?_⟩
  unfold transform_input_data badInputs
  simp [Data.mk.injEq, hneg, convert_zero]

/-- C3 amended: `transform_input_data` performs no range validation.  For every raw
input — in range or not — it returns the complete converted record (man amounts
converted by `convert_to_yen`, years and rates copied, totals summed), and the
projection then runs on it to full length; range clamping happens only in the
upstream UI widgets. -/
theorem C3_no_validation (inputs : Inputs) (now : Date) :
    transform_input_data inputs =
      { monthly_stock := convert_to_yen inputs.monthly_stock_man
        monthly_bond := convert_to_yen inputs.monthly_bond_man
        monthly_savings := convert_to_yen inputs.monthly_savings_man
        initial_stock := convert_to_yen inputs.initial_stock_man
        initial_bond := convert_to_yen inputs.initial_bond_man
        initial_savings := convert_to_yen inputs.initial_savings_man
        current_stock := convert_to_yen inputs.current_stock_man
        current_bond := convert_to_yen inputs.current_bond_man
        current_savings := convert_to_yen inputs.current_savings_man
        years := inputs.years
        stock_return := inputs.stock_return
        bond_return := inputs.bond_return
        savings_return := inputs.savings_return
        current_total_assets := convert_to_yen inputs.current_stock_man +
          convert_to_yen inputs.current_bond_man + convert_to_yen inputs.current_savings_man
        initial_total := convert_to_yen inputs.initial_stock_man +
          convert_to_yen inputs.initial_bond_man + convert_to_yen inputs.initial_savings_man } ∧
    (run_simulation (transform_input_data inputs) now).length = inputs.years * 12 + 1 :=
  ⟨rfl, by rw [run_simulation_length]; rfl⟩

/-- C4 counterexample: the claim says two invocations with identical parameters
yield identical output sequences including the calendar-date fields; but the code
stamps dates from `datetime.datetime.now()`, which is not a parameter, so two runs
of `run_simulation` with the same parameter record `d0` at different wall-clock
dates produce different outputs (their snapshot-0 dates differ). -/
theorem C4_counterexample :
    run_simulation d0 now0 ≠ run_simulation d0 ⟨2026, 11, 12⟩ := by
  intro h
  have h2 : ((run_simulation d0 now0).getD 0 default).2.2 =
      ((run_simulation d0 ⟨2026, 11, 12⟩).getD 0 default).2.2 := by rw [h]
  rw [run_simulation_getD d0 now0 0 (Nat.zero_le _),
    run_simulation_getD d0 ⟨2026, 11, 12⟩ 0 (Nat.zero_le _)] at h2
  exact absurd h2 (by decide)

/-- C4 amended: with identical parameters the numeric output sequences (rows and
gain column) are identical regardless of the run date, and with identical
parameters and the same wall-clock current date the entire outputs, calendar-date
fields included, are identical. -/
theorem C4_determinism_given_date (d : Data) (n1 n2 : Date) :
    ((run_simulation d n1).map (fun x => (x.1, x.2.1)) =
      (run_simulation d n2).map (fun x => (x.1, x.2.1))) ∧
    (n1 = n2 → run_simulation d n1 = run_simulation d n2) := by
  constructor
  · unfold run_simulation
    rw [List.map_map, List.map_map]
    rfl
  · intro h
    rw [h]

/-- Witness for C4 (amended) at the sample record `d0` and run date `now0`. -/
theorem C4_witness :
    ((run_simulation d0 now0).map (fun x => (x.1, x.2.1)) =
      (run_simulation d0 now0).map (fun x => (x.1, x.2.1))) ∧
    (now0 = now0 → run_simulation d0 now0 = run_simulation d0 now0) :=
  C4_determinism_given_date d0 now0 now0

/-- C5 counterexample: the claim says a zero denominator makes all per-class
percentages report as 0; in the code the percentage block of
`create_asset_growth_chart` runs only under `if current_total_assets > 0`, so with
a zero total the percentages are skipped entirely (`none`), not reported as 0. -/
theorem C5_counterexample : chart_percentages 0 0 0 0 ≠ some (0, 0, 0) := by
  simp [chart_percentages]

/-- C5 amended: the chart's per-class percentages are computed only under a strict
positivity guard on the actual current total — a zero denominator means the block
is skipped (`none`), not reported as 0; and the progress ratio division by
the final simulated total is unguarded — a zero final total produces a non-finite
numpy float (modelled `none`) without raising, while a nonzero final total yields
the ordinary quotient.  No exception is raised in either derivation. -/
theorem C5_division_policy (s b v t : ℚ) (d : Data) :
    (t = 0 → chart_percentages s b v t = none) ∧
    (0 < t → chart_percentages s b v t =
      some (s / t * 100, b / t * 100, v / t * 100)) ∧
    ((simRow d (d.years * 12)).total = 0 → display_progress_percentage d = none) ∧
    ((simRow d (d.years * 12)).total ≠ 0 → display_progress_percentage d =
      some ((d.current_total_assets : ℚ) / (simRow d (d.years * 12)).total * 100)) := by
  refine ⟨?_, ?_, ?_, ?_⟩
  · intro ht
    unfold chart_percentages
    rw [if_neg (by rw [ht]; exact lt_irrefl 0)]
  · intro ht
    unfold chart_percentages
    rw [if_pos ht]
  · intro h
    unfold display_progress_percentage
    rw [if_pos h]
  · intro h
    unfold display_progress_percentage
    rw [if_neg h]

/-- Witness for C5 (amended) at concrete percentages `(1,2,3)` with zero total and
the sample record `d0`. -/
theorem C5_witness :
    (((0 : ℚ) = 0 → chart_percentages 1 2 3 0 = none) ∧
    ((0 : ℚ) < 0 → chart_percentages 1 2 3 0 =
      some (1 / 0 * 100, 2 / 0 * 100, 3 / 0 * 100)) ∧
    ((simRow d0 (d0.years * 12)).total = 0 → display_progress_percentage d0 = none) ∧
    ((simRow d0 (d0.years * 12)).total ≠ 0 → display_progress_percentage d0 =
      some ((d0.current_total_assets : ℚ) / (simRow d0 (d0.years * 12)).total * 100))) :=
  C5_division_policy 1 2 3 0 d0

/-- C6: the man-to-yen conversion truncates toward zero: 3.0 man is exactly 30000,
3.05 man is exactly 30500 (no truncation loss), a sub-unit fraction (0.00005 man,
i.e. half a yen) truncates to 0; on non-negative inputs the result is the floor of
`value * 10000`, and negation mirrors the result (truncation toward zero). -/
theorem C6_unit_conversion (v : ℚ) (hv : 0 ≤ v) :
    convert_to_yen 3 = 30000 ∧
    convert_to_yen (3.05 : ℚ) = 30500 ∧
    convert_to_yen (1 / 20000 : ℚ) = 0 ∧
    convert_to_yen v = ⌊v * 10000⌋ ∧
    convert_to_yen (-v) = - convert_to_yen v := by
  refine ⟨?_, ?_, ?_, convert_eq_floor v hv, convert_neg v⟩
  · rw [convert_eq_floor 3 (by norm_num),
      show (3 : ℚ) * 10000 = ((30000 : ℤ) : ℚ) by norm_num, Int.floor_intCast]
  · rw [convert_eq_floor (3.05 : ℚ) (by norm_num),
      show (3.05 : ℚ) * 10000 = ((30500 : ℤ) : ℚ) by norm_num, Int.floor_intCast]
  · rw [convert_eq_floor (1 / 20000 : ℚ) (by norm_num)]
    rw [show (1 / 20000 : ℚ) * 10000 = 1 / 2 by norm_num]
    rw [Int.floor_eq_zero_iff.mpr (by constructor <;> norm_num)]

/-- Witness for C6 at `v = 1/2`. -/
theorem C6_witness :
    (0 : ℚ) ≤ 1 / 2 ∧
    (convert_to_yen 3 = 30000 ∧
    convert_to_yen (3.05 : ℚ) = 30500 ∧
    convert_to_yen (1 / 20000 : ℚ) = 0 ∧
    convert_to_yen (1 / 2) = ⌊(1 / 2 : ℚ) * 10000⌋ ∧
    convert_to_yen (-(1 / 2)) = - convert_to_yen (1 / 2)) :=
  ⟨by norm_num, C6_unit_conversion (1 / 2) (by norm_num)⟩

/-- C8: the calendar date attached to snapshot 0 is the run's current date
unmodified (not month-end normalized); for every `i ≥ 1` the date attached to
snapshot `i` is the result of advancing `i` calendar months from the current date
and normalizing to the last day of that month. -/
theorem C8_calendar_dates (d : Data) (now : Date) (i : ℕ)
    (h1 : 1 ≤ now.month) (h2 : now.month ≤ 12) (hi : i ≤ d.years * 12) :
    ((run_simulation d now).getD 0 default).2.2 = now ∧
    (1 ≤ i → ((run_simulation d now).getD i default).2.2 = monthEndAfter now i) := by
  constructor
  · rw [run_simulation_getD d now 0 (Nat.zero_le _)]
    rfl
  · intro h1i
    rw [run_simulation_getD d now i hi]
    obtain ⟨j, rfl⟩ : ∃ j, i = j + 1 := ⟨i - 1, by omega⟩
    exact dateAt_eq_monthEndAfter now h1 h2 j

/-- Witness for C8 at the sample record `d0`, run date 2026-10-12, index 2. -/
theorem C8_witness :
    1 ≤ now0.month ∧ now0.month ≤ 12 ∧ (2 : ℕ) ≤ d0.years * 12 ∧
    (((run_simulation d0 now0).getD 0 default).2.2 = now0 ∧
    (1 ≤ 2 → ((run_simulation d0 now0).getD 2 default).2.2 = monthEndAfter now0 2)) :=
  ⟨by decide, by decide, by decide,
    C8_calendar_dates d0 now0 2 (by decide) (by decide) (by decide)⟩

end AssetPlanner
